import Mathlib

/-
Shallow embedding of the challenge-response authentication engine of
TURRA7/registration_authorization (src/api/api.py), together with models of
its collaborators (backend flows, JWT tools, configuration constants) that
are declared but whose code is not part of the repository snapshot.

Conventions:
* Redis is an association list from string keys to a stored value plus the
  TTL recorded at write time (`none` for a plain SET, `some seconds` for
  SETEX).  TTL expiry itself is store-driven and not stepped here; claims
  about expiry are settled by inspecting the recorded TTL.
* JSON objects stored in Redis are association lists of fields; `json.loads`
  of a bare (non-object) string is a decoding crash.
* A handler returning `none` models an unhandled Python exception
  (AttributeError / KeyError / redis DataError), i.e. an HTTP 500 crash,
  as opposed to `some (resp, st)`: a JSONResponse together with the new
  state of the store and the user database.
-/

namespace RegAuth

/-- JSON field values occurring in the Redis entries of this app. -/
inductive JField where
  | jstr (s : String)
  | jbool (b : Bool)
  | jnull
deriving DecidableEq, Repr

/-- A decoded JSON object: field name to field value. -/
abbrev JObj := List (String × JField)

/-- Python `dict.get(k)`: `none` plays the role of `None` (absent key). -/
def objGet (o : JObj) (k : String) : Option JField :=
  (o.find? (fun p => p.1 == k)).map Prod.snd

/-- `dict.get(k)` specialised to the string-valued fields the handlers read:
an absent key and a JSON null both come back as Python `None`. -/
def objGetStr (o : JObj) (k : String) : Option String :=
  match objGet o k with
  | some (JField.jstr s) => some s
  | _ => none

/-- A raw Redis value: either a bare string (the token entries) or a JSON
object written with `json.dumps`. -/
inductive RedisVal where
  | vstr (s : String)
  | vobj (o : JObj)
deriving DecidableEq, Repr

/-- `json.loads` of the stored value: objects decode, a bare string raises. -/
def asObj : RedisVal → Option JObj
  | RedisVal.vobj o => some o
  | RedisVal.vstr _ => none

/-- The Redis store: key, value, and the TTL recorded when the key was set
(`none` when written by plain SET, which installs no expiry). -/
abbrev Store := List (String × RedisVal × Option Nat)

/-- `redis_client.exists(k)`. -/
def Store.exists_ (s : Store) (k : String) : Bool :=
  s.any (fun e => e.1 == k)

/-- The full entry at key `k`: value and recorded TTL. -/
def Store.find (s : Store) (k : String) : Option (RedisVal × Option Nat) :=
  (List.find? (fun e => e.1 == k) s).map Prod.snd

/-- `redis_client.get(k)`: `none` is Python `None` (absent key). -/
def Store.get (s : Store) (k : String) : Option RedisVal :=
  (Store.find s k).map Prod.fst

/-- The TTL recorded for key `k`: `none` if the key is absent, `some none`
if present without expiry, `some (some t)` if present with a TTL. -/
def Store.ttlOf (s : Store) (k : String) : Option (Option Nat) :=
  (Store.find s k).map Prod.snd

/-- `redis_client.set(k, v)`: plain SET, no TTL recorded. -/
def Store.set (s : Store) (k : String) (v : RedisVal) : Store :=
  (k, v, none) :: s.filter (fun e => e.1 != k)

/-- `redis_client.setex(k, ttl, v)`: SET with an expiry, TTL in seconds. -/
def Store.setex (s : Store) (k : String) (ttl : Nat) (v : RedisVal) : Store :=
  (k, v, some ttl) :: s.filter (fun e => e.1 != k)

/-- `redis_client.delete(k)`. -/
def Store.delete (s : Store) (k : String) : Store :=
  s.filter (fun e => e.1 != k)

/-- A persistent user row (database/FDataBase, table `user` of the alembic
migration): login, email, password hash, active flag. -/
structure User where
  login : String
  email : String
  password : String
  is_active : Bool
deriving DecidableEq, Repr

/-- Combined program state: the Redis store and the persistent user table. -/
structure St where
  store : Store
  db : List User
deriving DecidableEq, Repr

/-- The `{status_code, message, payload}` triple a handler returns; `payload`
carries the extra content some responses attach (issued token, user echo). -/
structure Resp where
  status_code : Nat
  message : String
  payload : Option String
deriving DecidableEq, Repr

/-- f-string rendering of a possibly-`None` Python value. -/
def pyStr : Option String → String
  | some s => s
  | none => "None"

/-- Modelled from the spec: the password-hashing collaborator
`hash(plaintext) -> digest` (backend.backend is not under src/). -/
def hash_password (p : String) : String := "hashed:" ++ p

/-- Modelled from the spec: email-format validation (`is_valid_email` from
backend.backend, not under src/). -/
def is_valid_email (e : String) : Bool := e.data.any (fun c => c == '@')

/-- Modelled from the spec: the recovery-state tags `SESSION_STATE_MAIL` /
`SESSION_STATE_CODE` from config (not under src/); §3 names the states
`MAIL_SENT` and `CODE_VERIFIED`. -/
def SESSION_STATE_MAIL : String := "MAIL_SENT"

/-- Modelled from the spec: see `SESSION_STATE_MAIL`. -/
def SESSION_STATE_CODE : String := "CODE_VERIFIED"

/-- Result triple returned by the backend flow steps that also hand back a
generated verification code. -/
structure CodeResult where
  status_code : Nat
  message : String
  code : String
deriving DecidableEq, Repr

/-- Result of a backend step that may update the persistent user table. -/
structure DbResult where
  status_code : Nat
  message : String
  db : List User
deriving DecidableEq, Repr

/-- Modelled from the spec: `Registration.register` (backend.backend, not
under src/) validates email format, password match and login/email
uniqueness; on success it returns 200 together with a generated
verification code.  The generated code is nondeterministic, so it is
passed in as the oracle argument `code`. -/
def Registration.register (db : List User)
    (email login password password_two code : String) : CodeResult :=
  if !is_valid_email email then ⟨422, "Некорректный email!", ""⟩
  else if password != password_two then ⟨422, "Пароли не совпадают!", ""⟩
  else if db.any (fun u => u.login == login || u.email == email) then
    ⟨409, "Пользователь уже существует!", ""⟩
  else ⟨200, "ok", code⟩

/-- Modelled from the spec: `Registration.confirm_register` (backend.backend,
not under src/) hashes the password and persists the user; duplicate
login/email fails.  `none` arguments are the `None` values Python would
pass for missing JSON fields, rejected as invalid input. -/
def Registration.confirm_register (db : List User)
    (email login password : Option String) : DbResult :=
  match email, login, password with
  | some e, some l, some p =>
    if db.any (fun u => u.login == l || u.email == e) then
      ⟨409, "Пользователь уже существует!", db⟩
    else ⟨200, "Вы зарегистрированы!", ⟨l, e, hash_password p, false⟩ :: db⟩
  | _, _, _ => ⟨400, "Некорректные данные!", db⟩

/-- Modelled from the spec: `Authorization.authorization` (backend.backend,
not under src/) looks the user up and compares the password hash; any
mismatch yields one generic failure.  On success it returns a generated
code, passed in as the oracle argument `code`. -/
def Authorization.authorization (db : List User)
    (login password code : String) : CodeResult :=
  if db.any (fun u => (u.login == login || u.email == login) &&
      u.password == hash_password password) then
    ⟨200, "ok", code⟩
  else ⟨400, "Неправильный логин или пароль!", ""⟩

/-- Modelled from the spec: `PasswordRecovery.recover_pass` (backend.backend,
not under src/) resolves the identifier to a user and generates a code
(oracle argument `code`). -/
def PasswordRecovery.recover_pass (db : List User)
    (user code : String) : CodeResult :=
  if db.any (fun u => u.login == user || u.email == user) then ⟨200, "ok", code⟩
  else ⟨400, "Пользователь не найден!", ""⟩

/-- Modelled from the spec: `PasswordRecovery.new_password` (backend.backend,
not under src/) validates the password match, hashes the new password and
persists it for the resolved user. -/
def PasswordRecovery.new_password (db : List User) (user : Option String)
    (password password_two : String) : DbResult :=
  match user with
  | none => ⟨400, "Некорректные данные!", db⟩
  | some u =>
    if password != password_two then ⟨400, "Пароли не совпадают!", db⟩
    else if !(db.any (fun x => x.login == u || x.email == u)) then
      ⟨400, "Пользователь не найден!", db⟩
    else ⟨200, "Пароль обновлён!",
      db.map (fun x => if x.login == u || x.email == u then
        { x with password := hash_password password } else x)⟩

/-- Modelled from the spec: `update_is_active` (database.FDataBase, not under
src/) sets the active flag of the user with the given login; a `None`
login matches nobody. -/
def update_is_active (db : List User) (login : Option String) (b : Bool) :
    List User :=
  db.map (fun u => if some u.login == login then { u with is_active := b } else u)

/-- Modelled from the spec: `create_jwt_token` (jwt_tools, not under src/)
mints a signed token embedding the identity claim and the lifetime in
hours; a `None` login yields a token whose login claim is null. -/
def create_jwt_token (login : Option String) (token_lifetime_hours : Nat) :
    String :=
  match login with
  | some l => "jwt" ++ toString token_lifetime_hours ++ "." ++ l
  | none => "jwtnull" ++ toString token_lifetime_hours

/-- Modelled from the spec: `decode_jwt_token` (jwt_tools, not under src/)
verifies the signature and returns the claims; a string not minted by the
issuer (with this app's 1-hour lifetime) fails to decode. -/
def decode_jwt_token (t : String) : Option JObj :=
  if t == "jwtnull1" then some [("login", JField.jnull)]
  else
    match t.data with
    | 'j' :: 'w' :: 't' :: '1' :: '.' :: rest =>
      some [("login", JField.jstr (String.mk rest))]
    | _ => none

/-- src/api/api.py `get_current_user`: `none` is the 401
`credentials_exception`.  Store presence is checked first, then the token
is decoded and its login claim must not be `None`. -/
def get_current_user (st : St) (token : String) : Option String :=
  if !(Store.exists_ st.store token) then none
  else
    match decode_jwt_token token with
    | none => none
    | some payload => objGetStr payload "login"

/-- src/api/api.py `registration` (POST /registration/): on backend success
the pending data is written with plain SET under the generated code. -/
def registration (st : St)
    (email login password password_two code : String) : Resp × St :=
  let result := Registration.register st.db email login password password_two code
  if result.status_code == 200 then
    let data_redis := RedisVal.vobj
      [("email", JField.jstr email), ("login", JField.jstr login),
       ("password", JField.jstr password)]
    (⟨200, "Введите код с почты!", none⟩,
     { st with store := Store.set st.store result.code data_redis })
  else (⟨result.status_code, result.message, none⟩, st)

/-- src/api/api.py `confirm` (POST /registration/confirm).  Note the delete
at the end targets the key `"login:" ++ code`, not `code`: the pending
entry itself is never removed. -/
def confirm (st : St) (code : String) : Option (Resp × St) :=
  if !(Store.exists_ st.store code) then
    some (⟨400, "Введённый код не верный!", none⟩, st)
  else
    match Store.get st.store code with
    | none => none
    | some v =>
      match asObj v with
      | none => none
      | some user_data =>
        let email := objGetStr user_data "email"
        let login := objGetStr user_data "login"
        let password := objGetStr user_data "password"
        let result := Registration.confirm_register st.db email login password
        if result.status_code == 200 then
          some (⟨200, result.message, none⟩,
            ⟨Store.delete st.store ("login:" ++ code), result.db⟩)
        else some (⟨400, result.message, none⟩, st)

/-- src/api/api.py `authorization` (POST /authorization/): on backend success
the pending-login data is written with plain SET under the code, and the
response payload carries the login key. -/
def authorization (st : St) (login password : String) (memorize_user : Bool)
    (code : String) : Resp × St :=
  let result := Authorization.authorization st.db login password code
  if result.status_code == 200 then
    let data_redis := RedisVal.vobj
      [("code", JField.jstr result.code), ("login", JField.jstr login),
       ("remember_user", JField.jbool memorize_user)]
    (⟨200, "", some login⟩,
     { st with store := Store.set st.store result.code data_redis })
  else (⟨result.status_code, result.message, none⟩, st)

/-- src/api/api.py `verification` (POST /authorization/verification).  The
absent-code branch builds a 400 response but is missing a `return`, so
control falls through to `redis_client.get`, whose `None` result crashes
`json.loads(user_data.decode(...))` — modelled as `none`.  On the success
path the token is stored by SETEX with a 12-hour TTL (43200 s) while the
token itself embeds a 1-hour lifetime, and the final delete targets
`"login:" ++ auth_code`, not the pending entry's key. -/
def verification (st : St) (code : String) : Option (Resp × St) :=
  match Store.get st.store code with
  | none => none
  | some v =>
    match asObj v with
    | none => none
    | some user_data =>
      let login := objGetStr user_data "login"
      let auth_code := objGetStr user_data "code"
      match login with
      | none => none
      | some l =>
        let token := create_jwt_token (some l) 1
        let db1 := update_is_active st.db (some l) true
        let store1 := Store.setex st.store token 43200 (RedisVal.vstr l)
        let store2 := Store.delete store1 ("login:" ++ pyStr auth_code)
        some (⟨200, "Вы авторизированны!", some token⟩, ⟨store2, db1⟩)

/-- src/api/api.py `recover` (POST /authorization/recover): on backend
success a MAIL_SENT entry is written with plain SET under the code. -/
def recover (st : St) (user code : String) : Resp × St :=
  let result := PasswordRecovery.recover_pass st.db user code
  let data_redis := RedisVal.vobj
    [("state", JField.jstr SESSION_STATE_MAIL), ("user", JField.jstr user)]
  if result.status_code == 200 then
    (⟨200, "Теперь введите код с почты...", some user⟩,
     { st with store := Store.set st.store result.code data_redis })
  else (⟨result.status_code, result.message, none⟩, st)

/-- src/api/api.py `reset_code` (POST /authorization/recover/reset_code).
The absent-code branch is again missing a `return` (crash, `none`).  On a
MAIL_SENT entry a CODE_VERIFIED entry is written under the user identity,
and the final delete targets `"login:" ++ code`, not the code key. -/
def reset_code (st : St) (code : String) : Option (Resp × St) :=
  match Store.get st.store code with
  | none => none
  | some v =>
    match asObj v with
    | none => none
    | some user_data =>
      let state := objGetStr user_data "state"
      let user := objGetStr user_data "user"
      if state == some SESSION_STATE_MAIL then
        match user with
        | none => none
        | some u =>
          let data_redis := RedisVal.vobj
            [("state", JField.jstr SESSION_STATE_CODE), ("user", JField.jstr u)]
          let store1 := Store.set st.store u data_redis
          let store2 := Store.delete store1 ("login:" ++ code)
          some (⟨200, "Можете менять пароль!", none⟩, { st with store := store2 })
      else some (⟨400, "Вы не указали почту!", none⟩, st)

/-- src/api/api.py `change_password`
(POST /authorization/recover/reset_code/change_password).  There is no
existence check: an absent user-keyed entry makes `user_data.decode`
crash on `None` (modelled `none`).  On success the delete targets
`"login:" ++ user`, not the user key. -/
def change_password (st : St) (user_id password password_two : String) :
    Option (Resp × St) :=
  match Store.get st.store user_id with
  | none => none
  | some v =>
    match asObj v with
    | none => none
    | some user_data =>
      let state := objGetStr user_data "state"
      let user := objGetStr user_data "user"
      if state == some SESSION_STATE_CODE then
        let result := PasswordRecovery.new_password st.db user password password_two
        if result.status_code == 200 then
          some (⟨200, result.message, none⟩,
            ⟨Store.delete st.store ("login:" ++ pyStr user), result.db⟩)
        else some (⟨result.status_code, result.message, none⟩,
          { st with db := result.db })
      else some (⟨400, "Вы не ввели код!", none⟩, st)

/-- src/api/api.py `logout` (POST /logout/): store presence first (400 if
absent), then delete the token key, decode the identity from the token
claims and set the active flag to `True`.  Decoding happens outside any
try/except, so a decode failure or a missing login claim raises. -/
def logout (st : St) (token : String) : Option (Resp × St) :=
  if Store.exists_ st.store token then
    let store1 := Store.delete st.store token
    match decode_jwt_token token with
    | none => none
    | some payload =>
      match objGet payload "login" with
      | none => none
      | some f =>
        let l := match f with | JField.jstr s => some s | _ => none
        some (⟨200, "Успешный выход!", none⟩, ⟨store1, update_is_active st.db l true⟩)
  else some (⟨400, "Токен не найден", none⟩, st)

/-! ### Concrete example data for the scenarios -/

/-- The pending-registration value written for alice. -/
def regDataAlice : RedisVal :=
  RedisVal.vobj [("email", JField.jstr "a@x.com"), ("login", JField.jstr "alice"),
    ("password", JField.jstr "P")]

/-- The user row persisted when `regDataAlice` is confirmed. -/
def userAlice : User := ⟨"alice", "a@x.com", "hashed:P", false⟩

/-- The pending-login value written for alice under code `"C"`. -/
def loginDataAlice : RedisVal :=
  RedisVal.vobj [("code", JField.jstr "C"), ("login", JField.jstr "alice"),
    ("remember_user", JField.jbool true)]

/-- A MAIL_SENT recovery entry for alice. -/
def mailSentAlice : RedisVal :=
  RedisVal.vobj [("state", JField.jstr "MAIL_SENT"), ("user", JField.jstr "alice")]

/-- A CODE_VERIFIED recovery entry for alice. -/
def codeVerifiedAlice : RedisVal :=
  RedisVal.vobj [("state", JField.jstr "CODE_VERIFIED"), ("user", JField.jstr "alice")]

/-! ### Supporting lemmas about the store -/

theorem Store.exists_delete_self (s : Store) (k : String) :
    Store.exists_ (Store.delete s k) k = false := by
  simp only [Store.exists_, Store.delete]
  rw [List.any_eq_false]
  intro e he
  have hp := List.of_mem_filter he
  simp only [bne_iff_ne, ne_eq] at hp
  simp [hp]

theorem Store.find_set_self (s : Store) (k : String) (v : RedisVal) :
    Store.find (Store.set s k v) k = some (v, none) := by
  simp [Store.find, Store.set, List.find?]

/-- If `logout` succeeds on a token present in the store, the resulting
store is the original one with the token key deleted. -/
theorem logout_store_of_mem (st st' : St) (token : String) (r : Resp)
    (hmem : Store.exists_ st.store token = true)
    (hlog : logout st token = some (r, st')) :
    st'.store = Store.delete st.store token := by
  unfold logout at hlog
  rw [hmem] at hlog
  simp only [if_true] at hlog
  cases hd : decode_jwt_token token with
  | none => rw [hd] at hlog; cases hlog
  | some payload =>
    rw [hd] at hlog
    dsimp only at hlog
    cases hf : objGet payload "login" with
    | none => rw [hf] at hlog; cases hlog
    | some f =>
      rw [hf] at hlog
      dsimp only at hlog
      simp only [Option.some.injEq, Prod.mk.injEq] at hlog
      rw [← hlog.2]

/-! ### Claims -/

/-- C1: after `logout(token)` succeeds on a token present in the store, a
subsequent `get_current_user` on that same token rejects it (401), even
though the token still decodes; `get_current_user` always checks store
presence and signature validity, and never accepts a token absent from
the store. -/
theorem logout_revokes_token (st st' : St) (token : String) (r : Resp)
    (hmem : Store.exists_ st.store token = true)
    (hlog : logout st token = some (r, st')) :
    get_current_user st' token = none ∧
    (∀ s : St, Store.exists_ s.store token = false →
      get_current_user s token = none) ∧
    (∀ (s : St) (t l : String), get_current_user s t = some l →
      Store.exists_ s.store t = true ∧ decode_jwt_token t ≠ none) := by
  refine ⟨?_, ?_, ?_⟩
  · have hst := logout_store_of_mem st st' token r hmem hlog
    unfold get_current_user
    rw [hst, Store.exists_delete_self]
    rfl
  · intro s hs
    unfold get_current_user
    rw [hs]
    rfl
  · intro s t l h
    unfold get_current_user at h
    by_cases he : Store.exists_ s.store t = true
    · refine ⟨he, ?_⟩
      intro hc
      rw [he, hc] at h
      cases h
    · rw [Bool.not_eq_true] at he
      rw [he] at h
      cases h

/-- Witness for C1 at a concrete state: `"jwt1.alice"` stored with a 12-hour
TTL, logged out, then rejected by `get_current_user`. -/
theorem logout_revokes_token_w :
    get_current_user ⟨[], [⟨"alice", "a@x.com", "hashed:P", true⟩]⟩
      "jwt1.alice" = none :=
  (logout_revokes_token
    ⟨[("jwt1.alice", RedisVal.vstr "alice", some 43200)],
      [⟨"alice", "a@x.com", "hashed:P", true⟩]⟩
    ⟨[], [⟨"alice", "a@x.com", "hashed:P", true⟩]⟩
    "jwt1.alice" ⟨200, "Успешный выход!", none⟩ (by decide) (by decide)).1

/-- C10: for a token present as a key in the store, `get_current_user` is
exactly the login claim of the decoded token: it rejects (401, `none`)
when decoding fails or the login claim is `None`, and otherwise returns
the claim's login — never the value stored under the key. -/
theorem get_current_user_from_claims (st : St) (t : String)
    (h : Store.exists_ st.store t = true) :
    get_current_user st t =
      (decode_jwt_token t).bind (fun p => objGetStr p "login") := by
  unfold get_current_user
  rw [h]
  cases hd : decode_jwt_token t with
  | none => rfl
  | some p => rfl

/-- Witness for C10: the store holds `"stored-value"` under the token key,
yet `get_current_user` returns the login from the token claims. -/
theorem get_current_user_from_claims_w :
    get_current_user ⟨[("jwt1.alice", RedisVal.vstr "stored-value", none)], []⟩
      "jwt1.alice" = some "alice" :=
  Eq.trans
    (get_current_user_from_claims
      ⟨[("jwt1.alice", RedisVal.vstr "stored-value", none)], []⟩ "jwt1.alice"
      (by decide))
    (by decide)

/-- C8: `logout` on a token absent from the store returns the 400
"token not found" response and leaves the state unchanged; on a present
token it deletes the token's store entry, takes the identity from the
decoded token claims (for any stored value), sets that user's active flag
to `true`, and returns 200. -/
theorem logout_deletes_and_marks_active (st : St) (token l : String) (p : JObj) :
    (Store.exists_ st.store token = false →
      logout st token = some (⟨400, "Токен не найден", none⟩, st)) ∧
    (Store.exists_ st.store token = true →
      decode_jwt_token token = some p →
      objGetStr p "login" = some l →
      logout st token = some (⟨200, "Успешный выход!", none⟩,
        ⟨Store.delete st.store token, update_is_active st.db (some l) true⟩) ∧
      ∀ u ∈ update_is_active st.db (some l) true,
        u.login = l → u.is_active = true) := by
  constructor
  · intro h
    unfold logout
    rw [h]
    rfl
  · intro hmem hd hl
    have hg : objGet p "login" = some (JField.jstr l) := by
      unfold objGetStr at hl
      cases hf : objGet p "login" with
      | none => rw [hf] at hl; cases hl
      | some f =>
        rw [hf] at hl
        cases f with
        | jstr s => cases hl; rfl
        | jbool b => cases hl
        | jnull => cases hl
    constructor
    · unfold logout
      rw [hmem]
      simp only [if_true]
      rw [hd]
      dsimp only
      rw [hg]
    · intro u hu hlogin
      simp only [update_is_active, List.mem_map] at hu
      obtain ⟨x, hx, hux⟩ := hu
      by_cases hxl : x.login = l
      · rw [← hux]
        have hb : (some x.login == some l) = true := by simp [hxl]
        simp [hb]
      · have hb : (some x.login == some l) = false := by simp [hxl]
        rw [← hux] at hlogin
        rw [hb, if_neg Bool.false_ne_true] at hlogin
        exact absurd hlogin hxl

/-- Witness for C8 at a concrete state: logging out `"jwt1.alice"` removes
the token entry and flips alice's active flag. -/
theorem logout_deletes_and_marks_active_w :
    logout ⟨[("jwt1.alice", RedisVal.vstr "alice", some 43200)], [userAlice]⟩
      "jwt1.alice" =
    some (⟨200, "Успешный выход!", none⟩,
      ⟨[], [⟨"alice", "a@x.com", "hashed:P", true⟩]⟩) := by
  have h := ((logout_deletes_and_marks_active
    ⟨[("jwt1.alice", RedisVal.vstr "alice", some 43200)], [userAlice]⟩
    "jwt1.alice" "alice" [("login", JField.jstr "alice")]).2
    (by decide) (by decide) (by decide)).1
  exact h.trans (by decide)

/-- C2 (code bug): confirming the same registration code twice.  The first
call succeeds and persists the user, but its final delete targets the key
`"login:C"` instead of `"C"`, so the code-keyed pending entry survives
(contradicting the handler's own docstring step 4, which says the
temporary Redis data is cleared).  The second call therefore passes the
existence check, reaches the backend again and fails with the
duplicate-user message — not with the claimed 400 "invalid code"
(`NotFoundError`) response. -/
theorem confirm_twice_entry_survives :
    confirm ⟨[("C", regDataAlice, none)], []⟩ "C" =
      some (⟨200, "Вы зарегистрированы!", none⟩,
        ⟨[("C", regDataAlice, none)], [userAlice]⟩) ∧
    Store.exists_ [("C", regDataAlice, none)] "C" = true ∧
    confirm ⟨[("C", regDataAlice, none)], [userAlice]⟩ "C" =
      some (⟨400, "Пользователь уже существует!", none⟩,
        ⟨[("C", regDataAlice, none)], [userAlice]⟩) ∧
    ("Пользователь уже существует!" : String) ≠ "Введённый код не верный!" := by
  refine ⟨by decide, by decide, by decide, by decide⟩

/-- C3 (code bug): on a code absent from the store, `verification` builds the
400 "invalid code" response but has no `return` statement, so control
falls through to `redis_client.get` and crashes decoding `None`
(modelled as `none`): the claimed 400 response is never delivered.  (No
token is issued, no user is marked active and nothing is written, as the
claim states — but via a 500 crash, not the 400 response.) -/
theorem verification_absent_code_crashes :
    verification ⟨[], []⟩ "X" = none ∧
    verification ⟨[("other", regDataAlice, none)], [userAlice]⟩ "X" = none := by
  refine ⟨by decide, by decide⟩

/-- C5 (code bug): on a MAIL_SENT entry, `reset_code` does write the
user-keyed CODE_VERIFIED entry and return 200, and a non-MAIL_SENT state
fails with 400 — but the code-keyed entry is not deleted: the delete
targets `"login:C"` instead of `"C"` (contradicting docstring step 6),
so the consumed code entry survives in the store. -/
theorem reset_code_keeps_code_entry :
    reset_code ⟨[("C", mailSentAlice, none)], []⟩ "C" =
      some (⟨200, "Можете менять пароль!", none⟩,
        ⟨[("alice", codeVerifiedAlice, none), ("C", mailSentAlice, none)], []⟩) ∧
    Store.get [("alice", codeVerifiedAlice, none), ("C", mailSentAlice, none)]
      "alice" = some codeVerifiedAlice ∧
    Store.exists_ [("alice", codeVerifiedAlice, none), ("C", mailSentAlice, none)]
      "C" = true ∧
    reset_code ⟨[("D", codeVerifiedAlice, none)], []⟩ "D" =
      some (⟨400, "Вы не указали почту!", none⟩,
        ⟨[("D", codeVerifiedAlice, none)], []⟩) := by
  refine ⟨by decide, by decide, by decide, by decide⟩

/-- C6 (code bug): with a user-keyed CODE_VERIFIED entry and matching
passwords, `change_password` returns 200 and the new password is hashed
and persisted — but the user-keyed recovery entry is not deleted: the
delete targets `"login:alice"` instead of `"alice"` (contradicting
docstring step 5), so the recovery session is not consumed. -/
theorem change_password_keeps_session_entry :
    change_password ⟨[("alice", codeVerifiedAlice, none)],
        [⟨"alice", "a@x.com", "hashed:Old", true⟩]⟩ "alice" "New1" "New1" =
      some (⟨200, "Пароль обновлён!", none⟩,
        ⟨[("alice", codeVerifiedAlice, none)],
         [⟨"alice", "a@x.com", "hashed:New1", true⟩]⟩) ∧
    Store.exists_ [("alice", codeVerifiedAlice, none)] "alice" = true := by
  refine ⟨by decide, by decide⟩

/-- C7 (code bug): on successful login verification the token is stored under
the token string itself with the login as value and a fixed 12-hour TTL
(43200 s), independent of the 1-hour lifetime embedded in the token, and
the user is marked active — but the pending login entry is not deleted:
the delete targets `"login:C"` instead of `"C"` (contradicting docstring
step 4), so the consumed code survives in the store. -/
theorem verification_token_ttl_and_pending_kept :
    verification ⟨[("C", loginDataAlice, none)], [userAlice]⟩ "C" =
      some (⟨200, "Вы авторизированны!", some "jwt1.alice"⟩,
        ⟨[("jwt1.alice", RedisVal.vstr "alice", some 43200),
          ("C", loginDataAlice, none)],
         [⟨"alice", "a@x.com", "hashed:P", true⟩]⟩) ∧
    Store.find [("jwt1.alice", RedisVal.vstr "alice", some 43200),
      ("C", loginDataAlice, none)] "jwt1.alice" =
      some (RedisVal.vstr "alice", some 43200) ∧
    create_jwt_token (some "alice") 1 = "jwt1.alice" ∧
    Store.exists_ [("jwt1.alice", RedisVal.vstr "alice", some 43200),
      ("C", loginDataAlice, none)] "C" = true := by
  refine ⟨by decide, by decide, by decide, by decide⟩

/-- `new_password` either succeeds with 200 or leaves the user table as it
was: no failing outcome changes a stored password. -/
theorem new_password_success_or_db_unchanged (db : List User)
    (user : Option String) (p1 p2 : String) :
    (PasswordRecovery.new_password db user p1 p2).status_code = 200 ∨
    (PasswordRecovery.new_password db user p1 p2).db = db := by
  unfold PasswordRecovery.new_password
  cases user with
  | none => exact Or.inr rfl
  | some u =>
    dsimp only
    by_cases h1 : (p1 != p2) = true
    · rw [if_pos h1]; exact Or.inr rfl
    · rw [if_neg h1]
      by_cases h2 : (!(db.any fun x => x.login == u || x.email == u)) = true
      · rw [if_pos h2]; exact Or.inr rfl
      · rw [if_neg h2]; exact Or.inl rfl

/-- C4 counterexample: with no user-keyed recovery entry in the store,
`change_password` does not produce the claimed "invalid session"
response — there is no existence check, so `redis_client.get` returns
`None` and the handler crashes (`none`), sending no response at all. -/
theorem change_password_absent_session_no_response :
    change_password ⟨[], []⟩ "alice" "New1" "New1" = none := rfl

/-- C4 (amended): `change_password` reaches the persistent password update
only when a user-keyed CODE_VERIFIED entry exists: an absent user-keyed
entry makes the handler crash with an unhandled error (no "invalid
session" response is returned), an entry with any other state yields the
400 StateError response with the state unchanged, and no failing outcome
changes the user table. -/
theorem change_password_state_guard (st : St) (u p1 p2 : String) :
    (Store.get st.store u = none → change_password st u p1 p2 = none) ∧
    (∀ o : JObj, Store.get st.store u = some (RedisVal.vobj o) →
      objGetStr o "state" ≠ some SESSION_STATE_CODE →
      change_password st u p1 p2 = some (⟨400, "Вы не ввели код!", none⟩, st)) ∧
    (∀ (r : Resp) (st' : St), change_password st u p1 p2 = some (r, st') →
      r.status_code ≠ 200 → st'.db = st.db) := by
  refine ⟨?_, ?_, ?_⟩
  · intro h
    unfold change_password
    rw [h]
  · intro o ho hstate
    unfold change_password
    rw [ho]
    dsimp only [asObj]
    have hc : (objGetStr o "state" == some SESSION_STATE_CODE) = false := by
      simp [hstate]
    rw [hc]
    rfl
  · intro r st' h hne
    unfold change_password at h
    cases hg : Store.get st.store u with
    | none => rw [hg] at h; cases h
    | some v =>
      rw [hg] at h
      dsimp only at h
      cases v with
      | vstr s => dsimp only [asObj] at h; cases h
      | vobj o =>
        dsimp only [asObj] at h
        by_cases hs : (objGetStr o "state" == some SESSION_STATE_CODE) = true
        · rw [hs] at h
          simp only [if_true] at h
          by_cases hr : ((PasswordRecovery.new_password st.db
              (objGetStr o "user") p1 p2).status_code == 200) = true
          · rw [hr] at h
            simp only [if_true, Option.some.injEq, Prod.mk.injEq] at h
            exact absurd (by rw [← h.1]) hne
          · have hr' : ((PasswordRecovery.new_password st.db
                (objGetStr o "user") p1 p2).status_code == 200) = false :=
              Bool.of_not_eq_true hr
            rw [hr', if_neg Bool.false_ne_true] at h
            simp only [Option.some.injEq, Prod.mk.injEq] at h
            rw [← h.2]
            dsimp only
            rcases new_password_success_or_db_unchanged st.db
              (objGetStr o "user") p1 p2 with hok | hdb
            · simp [hok] at hr'
            · exact hdb
        · have hs' : (objGetStr o "state" == some SESSION_STATE_CODE) = false :=
            Bool.of_not_eq_true hs
          rw [hs', if_neg Bool.false_ne_true] at h
          simp only [Option.some.injEq, Prod.mk.injEq] at h
          rw [← h.2]

/-- Witness for C4 at a concrete state: a MAIL_SENT (not yet CODE_VERIFIED)
entry makes `change_password` fail with the 400 StateError response. -/
theorem change_password_state_guard_w :
    change_password ⟨[("alice", mailSentAlice, none)], []⟩ "alice" "N" "N" =
      some (⟨400, "Вы не ввели код!", none⟩,
        ⟨[("alice", mailSentAlice, none)], []⟩) :=
  (change_password_state_guard
    ⟨[("alice", mailSentAlice, none)], []⟩ "alice" "N" "N").2.1
    [("state", JField.jstr "MAIL_SENT"), ("user", JField.jstr "alice")]
    (by decide) (by decide)

/-- C9 counterexample: a successful registration writes the pending entry
with plain SET — the recorded TTL component is `none` — refuting the
claim that the entry carries a configured time-to-live after which it
would expire. -/
theorem registration_pending_has_no_ttl :
    (registration ⟨[], []⟩ "a@x.com" "alice" "P" "P" "C").1.status_code = 200 ∧
    Store.ttlOf (registration ⟨[], []⟩ "a@x.com" "alice" "P" "P" "C").2.store
      "C" = some none := by
  refine ⟨by decide, by decide⟩

/-- C9 (amended): every pending-registration entry created by a successful
registration request is written to the store under the generated code
with the submitted email, login and plaintext password, by a plain SET
with no time-to-live, so an entry that is never confirmed persists
instead of expiring. -/
theorem registration_writes_pending_without_ttl (st : St)
    (email login pw pw2 code : String)
    (h : (Registration.register st.db email login pw pw2 code).status_code = 200) :
    Store.find (registration st email login pw pw2 code).2.store
        (Registration.register st.db email login pw pw2 code).code =
      some (RedisVal.vobj [("email", JField.jstr email), ("login", JField.jstr login),
        ("password", JField.jstr pw)], none) := by
  unfold registration
  dsimp only
  rw [h]
  exact Store.find_set_self st.store
    (Registration.register st.db email login pw pw2 code).code _

/-- Witness for C9's amended statement at a concrete successful request. -/
theorem registration_writes_pending_without_ttl_w :
    Store.find (registration ⟨[], []⟩ "a@x.com" "alice" "P" "P" "C").2.store
        (Registration.register [] "a@x.com" "alice" "P" "P" "C").code =
      some (RedisVal.vobj [("email", JField.jstr "a@x.com"),
        ("login", JField.jstr "alice"), ("password", JField.jstr "P")], none) :=
  registration_writes_pending_without_ttl ⟨[], []⟩ "a@x.com" "alice" "P" "P" "C"
    (by decide)

end RegAuth
